import Mathlib

/-!
Shallow embedding of `src/trading_calculator.py` (Binance USDT-M futures
trading calculator).  Python floats are modelled as rationals (ℚ): every
formula in the source is closed-form field arithmetic, and the claims under
study are about exact arithmetic, clamping boundaries, string flags and
fault behaviour, none of which depend on rounding.  Python raises
`ZeroDivisionError` when the divisor of `/` is exactly zero, so division is
modelled as the fallible `fdiv : ℚ → ℚ → Option ℚ` and every function whose
body divides returns an `Option`; guarded divisions (behind an explicit
`if denom > 0` in the source) stay total.  Python's `dict {idx: {...}}`
keyed by the 1-based enumeration index is modelled as an association list
`List (Nat × TPResult)` built in enumeration order.  Korean message strings
are kept verbatim.
-/

namespace TradingCalc

/-- Python float division: raises `ZeroDivisionError` (here: `none`) when the
divisor is exactly zero. -/
def fdiv (a b : ℚ) : Option ℚ :=
  if b = 0 then none else some (a / b)

/-- `TAKER_FEE_RATE = 0.0004` from the source. -/
def TAKER_FEE_RATE : ℚ := 4 / 10000

/-- `MIN_LEVERAGE = 3` from the source. -/
def MIN_LEVERAGE : ℚ := 3

/-- `MAX_LEVERAGE = 150` from the source. -/
def MAX_LEVERAGE : ℚ := 150

/-- The `direction` literal `"LONG" | "SHORT"`. -/
inductive Direction where
  | LONG : Direction
  | SHORT : Direction
deriving DecidableEq, Repr

/-- The `TradingInputs` dataclass. -/
structure TradingInputs where
  total_asset : ℚ
  risk_ratio : ℚ
  direction : Direction
  entry_price : ℚ
  stop_loss : ℚ
  take_profits : List ℚ
  margin_usage_ratio : ℚ
deriving DecidableEq, Repr

/-- One value of the per-target dictionary `{rr_ratio, actual_rr, profit}`. -/
structure TPResult where
  rr_ratio : ℚ
  actual_rr : ℚ
  profit : ℚ
deriving DecidableEq, Repr

/-- The `TradingResults` dataclass. -/
structure TradingResults where
  stop_loss_pct : ℚ
  stop_loss_price : ℚ
  actual_loss_amount : ℚ
  position_notional : ℚ
  position_quantity : ℚ
  position_leverage : ℚ
  effective_leverage : ℚ
  take_profit_results : List (Nat × TPResult)
  structural_issue : String
  required_margin : ℚ
  overall_judgment : String
  actual_entry_notional : ℚ
  actual_entry_quantity : ℚ
  actual_entry_leverage : ℚ
deriving DecidableEq, Repr

/-- `calculate_risk_amount`: `total_asset * (risk_ratio / 100)`. -/
def calculate_risk_amount (total_asset risk_ratio : ℚ) : ℚ :=
  total_asset * (risk_ratio / 100)

/-- `calculate_stop_loss`: returns `(stop_loss_pct, stop_loss_price)`;
divides by `entry_price`. -/
def calculate_stop_loss (direction : Direction) (entry_price stop_loss : ℚ) :
    Option (ℚ × ℚ) :=
  match direction with
  | .LONG => do
      let r ← fdiv (entry_price - stop_loss) entry_price
      some (r * 100, stop_loss)
  | .SHORT => do
      let r ← fdiv (stop_loss - entry_price) entry_price
      some (r * 100, stop_loss)

/-- The direction-dependent loss-side price difference, computed by the
`if direction == "LONG"` branches of `calculate_position_size`,
`calculate_actual_loss` and `calculate_rr_and_profit`: `entry − stop` for
LONG, `stop − entry` for SHORT. -/
def price_diff (direction : Direction) (entry_price stop_loss : ℚ) : ℚ :=
  match direction with
  | .LONG => entry_price - stop_loss
  | .SHORT => stop_loss - entry_price

/-- `calculate_position_size`: returns `(notional, quantity)`; divides by
`price_diff + fee_per_unit`. -/
def calculate_position_size (direction : Direction)
    (entry_price stop_loss risk_amount : ℚ) : Option (ℚ × ℚ) :=
  let fee_per_unit := (entry_price + stop_loss) * TAKER_FEE_RATE
  do
    let quantity ←
      fdiv risk_amount (price_diff direction entry_price stop_loss + fee_per_unit)
    some (entry_price * quantity, quantity)

/-- `calculate_actual_loss`: fee-inclusive loss at the stop; no division. -/
def calculate_actual_loss (direction : Direction)
    (entry_price stop_loss notional quantity : ℚ) : ℚ :=
  let price_loss := price_diff direction entry_price stop_loss * quantity
  let entry_fee := notional * TAKER_FEE_RATE
  let exit_fee := stop_loss * quantity * TAKER_FEE_RATE
  price_loss + entry_fee + exit_fee

/-- `calculate_leverage`: returns `(leverage, effective_leverage,
required_margin)`; divides by `min_margin`, by `leverage` and by
`total_asset`.  The source evaluates `position_notional / min_margin`
before comparing it with `MAX_LEVERAGE`, so a zero `min_margin` faults. -/
def calculate_leverage (position_notional risk_amount total_asset
    margin_usage_ratio : ℚ) : Option (ℚ × ℚ × ℚ) := do
  let min_margin := total_asset * (margin_usage_ratio / 100)
  let r ← fdiv position_notional min_margin
  let leverage :=
    if r ≤ MAX_LEVERAGE then
      if r < MIN_LEVERAGE then MIN_LEVERAGE else r
    else MAX_LEVERAGE
  let required_margin ← fdiv position_notional leverage
  let effective_leverage ← fdiv position_notional total_asset
  some (leverage, effective_leverage, required_margin)

/-- The body of the `for idx, take_profit in enumerate(take_profits, start=1)`
loop of `calculate_rr_and_profit`, with the loop-invariant values
(`entry_fee`, `quantity`, `stop_loss_pct`, `actual_loss_with_fee`) passed in
and `idx` the 1-based enumeration counter.  `profit_pct` divides by
`entry_price`; the `rr_ratio` and `actual_rr` divisions are guarded in the
source by `> 0` conditions on their divisors and so never fault. -/
def rr_loop (direction : Direction) (entry_price : ℚ)
    (entry_fee quantity stop_loss_pct actual_loss_with_fee : ℚ)
    (idx : Nat) : List ℚ → Option (List (Nat × TPResult))
  | [] => some []
  | take_profit :: rest => do
      let r ←
        match direction with
        | .LONG => fdiv (take_profit - entry_price) entry_price
        | .SHORT => fdiv (entry_price - take_profit) entry_price
      let profit_pct := r * 100
      let rr_ratio := if stop_loss_pct > 0 then profit_pct / stop_loss_pct else 0
      let gross_profit :=
        match direction with
        | .LONG => (take_profit - entry_price) * quantity
        | .SHORT => (entry_price - take_profit) * quantity
      let tp_exit_fee := take_profit * quantity * TAKER_FEE_RATE
      let net_profit := gross_profit - entry_fee - tp_exit_fee
      let actual_rr :=
        if actual_loss_with_fee > 0 then net_profit / actual_loss_with_fee else 0
      let tail ← rr_loop direction entry_price entry_fee quantity stop_loss_pct
        actual_loss_with_fee (idx + 1) rest
      some ((idx, ⟨rr_ratio, actual_rr, net_profit⟩) :: tail)

/-- `calculate_rr_and_profit`: the shared fee-inclusive loss, then the
per-target loop starting at index 1. -/
def calculate_rr_and_profit (direction : Direction)
    (entry_price stop_loss : ℚ) (take_profits : List ℚ)
    (notional quantity stop_loss_pct : ℚ) : Option (List (Nat × TPResult)) :=
  let entry_fee := notional * TAKER_FEE_RATE
  let sl_exit_fee := stop_loss * quantity * TAKER_FEE_RATE
  let price_loss := price_diff direction entry_price stop_loss * quantity
  let actual_loss_with_fee := price_loss + entry_fee + sl_exit_fee
  rr_loop direction entry_price entry_fee quantity stop_loss_pct
    actual_loss_with_fee 1 take_profits

/-- The LONG branch of the take-profit walk of `check_structural_issues`:
`prev_tp` starts at `entry_price`, `idx` at 1, and `prev_tp` is updated to
each target regardless of flags. -/
def longTPFlags (entry_price : ℚ) (idx : Nat) (prev_tp : ℚ) :
    List ℚ → List String
  | [] => []
  | take_profit :: rest =>
      (if take_profit ≤ entry_price then
        [toString idx ++ "차 익절이 진입가보다 낮거나 같음"] else []) ++
      (if take_profit ≤ prev_tp then
        [toString idx ++ "차 익절이 이전 익절가보다 낮거나 같음"] else []) ++
      longTPFlags entry_price (idx + 1) take_profit rest

/-- The SHORT branch of the take-profit walk of `check_structural_issues`. -/
def shortTPFlags (entry_price : ℚ) (idx : Nat) (prev_tp : ℚ) :
    List ℚ → List String
  | [] => []
  | take_profit :: rest =>
      (if take_profit ≥ entry_price then
        [toString idx ++ "차 익절이 진입가보다 높거나 같음"] else []) ++
      (if take_profit ≥ prev_tp then
        [toString idx ++ "차 익절이 이전 익절가보다 높거나 같음"] else []) ++
      shortTPFlags entry_price (idx + 1) take_profit rest

/-- The `issues` list accumulated by `check_structural_issues` before
joining. -/
def structuralIssues (direction : Direction) (entry_price stop_loss : ℚ)
    (take_profits : List ℚ) : List String :=
  match direction with
  | .LONG =>
      (if stop_loss ≥ entry_price then
        ["스탑로스가 진입가보다 높거나 같음"] else []) ++
      longTPFlags entry_price 1 entry_price take_profits
  | .SHORT =>
      (if stop_loss ≤ entry_price then
        ["스탑로스가 진입가보다 낮거나 같음"] else []) ++
      shortTPFlags entry_price 1 entry_price take_profits

/-- Python's `sep.join(strings)`. -/
def joinStr (sep : String) : List String → String
  | [] => ""
  | [s] => s
  | s :: rest => s ++ sep ++ joinStr sep rest

/-- `check_structural_issues`: the "문제 없음" sentinel when no flag was
raised, else the flags joined with " / ". -/
def check_structural_issues (direction : Direction) (entry_price stop_loss : ℚ)
    (take_profits : List ℚ) : String :=
  let issues := structuralIssues direction entry_price stop_loss take_profits
  if issues = [] then "문제 없음" else joinStr " / " issues

/-- `judge_overall`: structural flag, leverage-range flag (with the
`elif leverage < MIN_LEVERAGE and stop_loss_pct < 1.0` branch), and the
wide-stop flag, joined with " / " or the "문제 없음" sentinel. -/
def judge_overall (leverage stop_loss_pct : ℚ) (structural_issue : String) :
    String :=
  let judgments :=
    (if structural_issue ≠ "문제 없음" then ["SL 조정 필요"] else []) ++
    (if leverage > MAX_LEVERAGE then ["사이즈 조정 필요"]
     else if leverage < MIN_LEVERAGE ∧ stop_loss_pct < 1 then
       ["사이즈 조정 필요"]
     else []) ++
    (if stop_loss_pct > 5 then ["SL 조정 필요"] else [])
  if judgments = [] then "문제 없음" else joinStr " / " judgments

/-- `calculate_trading_results`: the whole pipeline.  `none` models the
computation aborting with `ZeroDivisionError`. -/
def calculate_trading_results (inputs : TradingInputs) :
    Option TradingResults := do
  let risk_amount :=
    calculate_risk_amount inputs.total_asset inputs.risk_ratio
  let sl ← calculate_stop_loss inputs.direction inputs.entry_price
    inputs.stop_loss
  let ps ← calculate_position_size inputs.direction inputs.entry_price
    inputs.stop_loss risk_amount
  let actual_loss := calculate_actual_loss inputs.direction inputs.entry_price
    inputs.stop_loss ps.1 ps.2
  let lev ← calculate_leverage ps.1 risk_amount inputs.total_asset
    inputs.margin_usage_ratio
  let take_profit_results ← calculate_rr_and_profit inputs.direction
    inputs.entry_price inputs.stop_loss inputs.take_profits ps.1 ps.2 sl.1
  let structural_issue := check_structural_issues inputs.direction
    inputs.entry_price inputs.stop_loss inputs.take_profits
  let overall_judgment := judge_overall lev.1 sl.1 structural_issue
  some ⟨sl.1, sl.2, actual_loss, ps.1, ps.2, lev.1, lev.2.1,
    take_profit_results, structural_issue, lev.2.2, overall_judgment,
    ps.1, ps.2, lev.1⟩

/-! ### Concrete inputs and results used to instantiate the theorems -/

/-- The spec's worked example: LONG, entry 50000, stop 49000, targets
51000/52000, asset 10000, risk 5%, margin usage 60%. -/
def egInputs : TradingInputs :=
  ⟨10000, 5, .LONG, 50000, 49000, [51000, 52000], 60⟩

/-- The result of the pipeline on `egInputs`. -/
def egResult : TradingResults :=
  ⟨2, 49000, 500, 62500000/2599, 1250/2599, 31250/7797, 6250/2599,
    [(1, ⟨1, 2399/2599, 1199500/2599⟩), (2, ⟨2, 4898/2599, 2449000/2599⟩)],
    "문제 없음", 6000, "문제 없음", 62500000/2599, 1250/2599, 31250/7797⟩

/-- The same trade setup as `egInputs` with different monetary inputs
(asset 500, risk 20%, margin usage 40%). -/
def egInputs2 : TradingInputs :=
  ⟨500, 20, .LONG, 50000, 49000, [51000, 52000], 40⟩

/-- The result of the pipeline on `egInputs2`. -/
def egResult2 : TradingResults :=
  ⟨2, 49000, 100, 12500000/2599, 250/2599, 62500/2599, 25000/2599,
    [(1, ⟨1, 2399/2599, 239900/2599⟩), (2, ⟨2, 4898/2599, 489800/2599⟩)],
    "문제 없음", 200, "문제 없음", 12500000/2599, 250/2599, 62500/2599⟩

/-- A degenerate input whose stop equals the entry (stop-loss width 0%). -/
def egInputs3 : TradingInputs :=
  ⟨10000, 5, .LONG, 100, 100, [110], 60⟩

/-- The result of the pipeline on `egInputs3`: the quantity is solved from
the fee term alone, `rr_ratio` is guarded to 0, but `actual_rr` is
61975 / 500 = 2479/20. -/
def egResult3 : TradingResults :=
  ⟨0, 100, 500, 625000, 6250, 625/6, 125/2,
    [(1, ⟨0, 2479/20, 61975⟩)],
    "스탑로스가 진입가보다 높거나 같음", 6000, "SL 조정 필요",
    625000, 6250, 625/6⟩

/-! ### Helper lemmas -/

theorem fdiv_eq_some_iff {a b q : ℚ} :
    fdiv a b = some q ↔ b ≠ 0 ∧ q = a / b := by
  unfold fdiv
  split
  · simp_all
  · simp_all [eq_comm]

theorem fdiv_of_ne_zero {a b : ℚ} (h : b ≠ 0) : fdiv a b = some (a / b) := by
  simp [fdiv, h]

theorem calculate_position_size_inv {dir : Direction} {e s ra n q : ℚ}
    (h : calculate_position_size dir e s ra = some (n, q)) :
    price_diff dir e s + (e + s) * TAKER_FEE_RATE ≠ 0 ∧
      q = ra / (price_diff dir e s + (e + s) * TAKER_FEE_RATE) ∧
      n = e * q := by
  simp only [calculate_position_size, Option.bind_eq_bind, Option.bind_eq_some,
    fdiv_eq_some_iff, Option.some.injEq, Prod.mk.injEq] at h
  obtain ⟨q', ⟨hd, hq'⟩, hn, hq⟩ := h
  subst hq' hq hn
  exact ⟨hd, rfl, rfl⟩

theorem calculate_position_size_of_ne (dir : Direction) (e s ra : ℚ)
    (hd : price_diff dir e s + (e + s) * TAKER_FEE_RATE ≠ 0) :
    calculate_position_size dir e s ra =
      some (e * (ra / (price_diff dir e s + (e + s) * TAKER_FEE_RATE)),
        ra / (price_diff dir e s + (e + s) * TAKER_FEE_RATE)) := by
  simp [calculate_position_size, fdiv_of_ne_zero hd]

theorem calculate_actual_loss_of_position_size {dir : Direction} {e s ra n q : ℚ}
    (h : calculate_position_size dir e s ra = some (n, q)) :
    calculate_actual_loss dir e s n q = ra := by
  obtain ⟨hd, hq, hn⟩ := calculate_position_size_inv h
  subst hn
  subst hq
  have expand : calculate_actual_loss dir e s
      (e * (ra / (price_diff dir e s + (e + s) * TAKER_FEE_RATE)))
      (ra / (price_diff dir e s + (e + s) * TAKER_FEE_RATE)) =
      price_diff dir e s * (ra / (price_diff dir e s + (e + s) * TAKER_FEE_RATE)) +
      e * (ra / (price_diff dir e s + (e + s) * TAKER_FEE_RATE)) * TAKER_FEE_RATE +
      s * (ra / (price_diff dir e s + (e + s) * TAKER_FEE_RATE)) * TAKER_FEE_RATE := rfl
  have key : price_diff dir e s * (ra / (price_diff dir e s + (e + s) * TAKER_FEE_RATE)) +
      e * (ra / (price_diff dir e s + (e + s) * TAKER_FEE_RATE)) * TAKER_FEE_RATE +
      s * (ra / (price_diff dir e s + (e + s) * TAKER_FEE_RATE)) * TAKER_FEE_RATE =
      ra / (price_diff dir e s + (e + s) * TAKER_FEE_RATE) *
        (price_diff dir e s + (e + s) * TAKER_FEE_RATE) := by ring
  rw [expand, key, div_mul_cancel₀ _ hd]

/-- C1: with a nonzero sizing denominator, Step 4's fee-inclusive loss at the
Step-3 quantity is exactly the risk budget `total_asset * risk_ratio / 100`,
for both directions. -/
theorem step4_loss_eq_risk_budget (dir : Direction) (total_asset risk_ratio e s : ℚ)
    (hd : price_diff dir e s + (e + s) * TAKER_FEE_RATE ≠ 0) :
    ∃ n q, calculate_position_size dir e s
        (calculate_risk_amount total_asset risk_ratio) = some (n, q) ∧
      calculate_actual_loss dir e s n q =
        calculate_risk_amount total_asset risk_ratio := by
  have hps := calculate_position_size_of_ne dir e s
    (calculate_risk_amount total_asset risk_ratio) hd
  exact ⟨_, _, hps, calculate_actual_loss_of_position_size hps⟩

/-- C1 witness: the spec's worked example (LONG, entry 50000, stop 49000,
asset 10000, risk 5%): denominator 1039.6 ≠ 0 and the loss equals 500. -/
theorem step4_loss_eq_risk_budget_witness :
    price_diff .LONG 50000 49000 + (50000 + 49000) * TAKER_FEE_RATE ≠ 0 ∧
      (∃ n q, calculate_position_size .LONG 50000 49000
          (calculate_risk_amount 10000 5) = some (n, q) ∧
        calculate_actual_loss .LONG 50000 49000 n q =
          calculate_risk_amount 10000 5) :=
  ⟨by norm_num [price_diff, TAKER_FEE_RATE],
    step4_loss_eq_risk_budget .LONG 10000 5 50000 49000
      (by norm_num [price_diff, TAKER_FEE_RATE])⟩

theorem calculate_stop_loss_of_ne (dir : Direction) (e s : ℚ) (he : e ≠ 0) :
    calculate_stop_loss dir e s = some (price_diff dir e s / e * 100, s) := by
  cases dir <;> simp [calculate_stop_loss, fdiv_of_ne_zero he, price_diff]

theorem calculate_stop_loss_snd {dir : Direction} {e s : ℚ} {sl : ℚ × ℚ}
    (h : calculate_stop_loss dir e s = some sl) : sl.2 = s := by
  cases dir <;>
    simp only [calculate_stop_loss, Option.bind_eq_bind, Option.bind_eq_some,
      fdiv_eq_some_iff, Option.some.injEq] at h <;>
  · obtain ⟨r, ⟨he, hr⟩, h⟩ := h
    rw [← h]

theorem calculate_leverage_bounds {pn ra ta mur l el rm : ℚ}
    (h : calculate_leverage pn ra ta mur = some (l, el, rm)) :
    MIN_LEVERAGE ≤ l ∧ l ≤ MAX_LEVERAGE := by
  simp only [calculate_leverage, Option.bind_eq_bind, Option.bind_eq_some,
    fdiv_eq_some_iff, Option.some.injEq, Prod.mk.injEq] at h
  obtain ⟨r, ⟨hm, hr⟩, rm', ⟨hl0, hrm⟩, el', ⟨hta, hel⟩, hl, hel2, hrm2⟩ := h
  subst hl
  constructor
  · split_ifs with h1 h2
    · exact le_refl _
    · exact le_of_not_lt h2
    · norm_num [MIN_LEVERAGE, MAX_LEVERAGE]
  · split_ifs with h1 h2
    · norm_num [MIN_LEVERAGE, MAX_LEVERAGE]
    · exact h1
    · exact le_refl _

theorem calculate_leverage_isSome (pn ra ta mur : ℚ)
    (hm : ta * (mur / 100) ≠ 0) : (calculate_leverage pn ra ta mur).isSome := by
  have hta : ta ≠ 0 := by
    intro h0
    exact hm (by rw [h0]; ring)
  have hl : (if pn / (ta * (mur / 100)) ≤ MAX_LEVERAGE then
      (if pn / (ta * (mur / 100)) < MIN_LEVERAGE then MIN_LEVERAGE
        else pn / (ta * (mur / 100))) else MAX_LEVERAGE) ≠ 0 := by
    split_ifs with h1 h2
    · norm_num [MIN_LEVERAGE]
    · intro h0
      rw [h0] at h2
      exact h2 (by norm_num [MIN_LEVERAGE])
    · norm_num [MAX_LEVERAGE]
  simp [calculate_leverage, fdiv_of_ne_zero hm, fdiv_of_ne_zero hl,
    fdiv_of_ne_zero hta]

theorem rr_loop_isSome {dir : Direction} {e ef q slp alwf : ℚ} (he : e ≠ 0)
    (tps : List ℚ) : ∀ idx, (rr_loop dir e ef q slp alwf idx tps).isSome := by
  induction tps with
  | nil => intro idx; rfl
  | cons tp rest ih =>
      intro idx
      obtain ⟨out, hout⟩ := Option.isSome_iff_exists.mp (ih (idx + 1))
      cases dir <;> simp [rr_loop, fdiv_of_ne_zero he, hout]

theorem calculate_rr_and_profit_isSome (dir : Direction)
    (e s n q slp : ℚ) (he : e ≠ 0) (tps : List ℚ) :
    (calculate_rr_and_profit dir e s tps n q slp).isSome := by
  simp only [calculate_rr_and_profit]
  exact rr_loop_isSome he tps 1

theorem rr_loop_rr_ratio_zero {dir : Direction} {e ef q slp alwf : ℚ}
    (hslp : ¬ slp > 0) (tps : List ℚ) :
    ∀ idx out, rr_loop dir e ef q slp alwf idx tps = some out →
      ∀ p ∈ out, (p.2).rr_ratio = 0 := by
  induction tps with
  | nil =>
      intro idx out h p hp
      simp only [rr_loop, Option.some.injEq] at h
      subst h
      simp at hp
  | cons tp rest ih =>
      intro idx out h p hp
      cases dir <;>
      · simp only [rr_loop, Option.bind_eq_bind, Option.bind_eq_some,
          fdiv_eq_some_iff, Option.some.injEq] at h
        obtain ⟨r, ⟨he', hr⟩, tail, htail, hout⟩ := h
        subst hout
        rcases List.mem_cons.mp hp with hhd | htl
        · subst hhd
          simp [if_neg hslp]
        · exact ih (idx + 1) tail htail p htl

theorem calculate_trading_results_inv {inputs : TradingInputs} {r : TradingResults}
    (h : calculate_trading_results inputs = some r) :
    ∃ sl ps lev tpr,
      calculate_stop_loss inputs.direction inputs.entry_price inputs.stop_loss =
        some sl ∧
      calculate_position_size inputs.direction inputs.entry_price inputs.stop_loss
        (calculate_risk_amount inputs.total_asset inputs.risk_ratio) = some ps ∧
      calculate_leverage ps.1
        (calculate_risk_amount inputs.total_asset inputs.risk_ratio)
        inputs.total_asset inputs.margin_usage_ratio = some lev ∧
      calculate_rr_and_profit inputs.direction inputs.entry_price inputs.stop_loss
        inputs.take_profits ps.1 ps.2 sl.1 = some tpr ∧
      r = ⟨sl.1, sl.2,
        calculate_actual_loss inputs.direction inputs.entry_price inputs.stop_loss
          ps.1 ps.2,
        ps.1, ps.2, lev.1, lev.2.1, tpr,
        check_structural_issues inputs.direction inputs.entry_price inputs.stop_loss
          inputs.take_profits,
        lev.2.2,
        judge_overall lev.1 sl.1
          (check_structural_issues inputs.direction inputs.entry_price
            inputs.stop_loss inputs.take_profits),
        ps.1, ps.2, lev.1⟩ := by
  simp only [calculate_trading_results, Option.bind_eq_bind, Option.bind_eq_some,
    Option.some.injEq] at h
  obtain ⟨sl, hsl, ps, hps, lev, hlev, tpr, htpr, hr⟩ := h
  exact ⟨sl, ps, lev, tpr, hsl, hps, hlev, htpr, hr.symm⟩

theorem calculate_trading_results_mk {inputs : TradingInputs}
    {sl ps : ℚ × ℚ} {lev : ℚ × ℚ × ℚ} {tpr : List (Nat × TPResult)}
    (hsl : calculate_stop_loss inputs.direction inputs.entry_price
      inputs.stop_loss = some sl)
    (hps : calculate_position_size inputs.direction inputs.entry_price
      inputs.stop_loss
      (calculate_risk_amount inputs.total_asset inputs.risk_ratio) = some ps)
    (hlev : calculate_leverage ps.1
      (calculate_risk_amount inputs.total_asset inputs.risk_ratio)
      inputs.total_asset inputs.margin_usage_ratio = some lev)
    (htpr : calculate_rr_and_profit inputs.direction inputs.entry_price
      inputs.stop_loss inputs.take_profits ps.1 ps.2 sl.1 = some tpr) :
    calculate_trading_results inputs =
      some ⟨sl.1, sl.2,
        calculate_actual_loss inputs.direction inputs.entry_price inputs.stop_loss
          ps.1 ps.2,
        ps.1, ps.2, lev.1, lev.2.1, tpr,
        check_structural_issues inputs.direction inputs.entry_price inputs.stop_loss
          inputs.take_profits,
        lev.2.2,
        judge_overall lev.1 sl.1
          (check_structural_issues inputs.direction inputs.entry_price
            inputs.stop_loss inputs.take_profits),
        ps.1, ps.2, lev.1⟩ := by
  simp [calculate_trading_results, hsl, hps, hlev, htpr]

theorem calculate_trading_results_total (inputs : TradingInputs)
    (he : inputs.entry_price ≠ 0)
    (hd : price_diff inputs.direction inputs.entry_price inputs.stop_loss +
      (inputs.entry_price + inputs.stop_loss) * TAKER_FEE_RATE ≠ 0)
    (hm : inputs.total_asset * (inputs.margin_usage_ratio / 100) ≠ 0) :
    ∃ r, calculate_trading_results inputs = some r := by
  have hsl := calculate_stop_loss_of_ne inputs.direction inputs.entry_price
    inputs.stop_loss he
  have hps := calculate_position_size_of_ne inputs.direction inputs.entry_price
    inputs.stop_loss (calculate_risk_amount inputs.total_asset inputs.risk_ratio)
    hd
  obtain ⟨lev, hlev⟩ := Option.isSome_iff_exists.mp
    (calculate_leverage_isSome
      (inputs.entry_price *
        (calculate_risk_amount inputs.total_asset inputs.risk_ratio /
          (price_diff inputs.direction inputs.entry_price inputs.stop_loss +
            (inputs.entry_price + inputs.stop_loss) * TAKER_FEE_RATE)))
      (calculate_risk_amount inputs.total_asset inputs.risk_ratio)
      inputs.total_asset inputs.margin_usage_ratio hm)
  obtain ⟨tpr, htpr⟩ := Option.isSome_iff_exists.mp
    (calculate_rr_and_profit_isSome inputs.direction inputs.entry_price
      inputs.stop_loss
      (inputs.entry_price *
        (calculate_risk_amount inputs.total_asset inputs.risk_ratio /
          (price_diff inputs.direction inputs.entry_price inputs.stop_loss +
            (inputs.entry_price + inputs.stop_loss) * TAKER_FEE_RATE)))
      (calculate_risk_amount inputs.total_asset inputs.risk_ratio /
        (price_diff inputs.direction inputs.entry_price inputs.stop_loss +
          (inputs.entry_price + inputs.stop_loss) * TAKER_FEE_RATE))
      (price_diff inputs.direction inputs.entry_price inputs.stop_loss /
        inputs.entry_price * 100)
      he inputs.take_profits)
  exact ⟨_, calculate_trading_results_mk hsl hps hlev htpr⟩

/-! ### Evaluations of the concrete runs -/

theorem egResult_eq : calculate_trading_results egInputs = some egResult := by
  norm_num [egInputs, egResult, calculate_trading_results, calculate_risk_amount,
    calculate_stop_loss, calculate_position_size, calculate_leverage,
    calculate_actual_loss, calculate_rr_and_profit, rr_loop, price_diff, fdiv,
    TAKER_FEE_RATE, MIN_LEVERAGE, MAX_LEVERAGE, check_structural_issues,
    structuralIssues, longTPFlags, joinStr, judge_overall]

theorem egResult2_eq : calculate_trading_results egInputs2 = some egResult2 := by
  norm_num [egInputs2, egResult2, calculate_trading_results, calculate_risk_amount,
    calculate_stop_loss, calculate_position_size, calculate_leverage,
    calculate_actual_loss, calculate_rr_and_profit, rr_loop, price_diff, fdiv,
    TAKER_FEE_RATE, MIN_LEVERAGE, MAX_LEVERAGE, check_structural_issues,
    structuralIssues, longTPFlags, joinStr, judge_overall]

theorem egResult3_eq : calculate_trading_results egInputs3 = some egResult3 := by
  norm_num [egInputs3, egResult3, calculate_trading_results, calculate_risk_amount,
    calculate_stop_loss, calculate_position_size, calculate_leverage,
    calculate_actual_loss, calculate_rr_and_profit, rr_loop, price_diff, fdiv,
    TAKER_FEE_RATE, MIN_LEVERAGE, MAX_LEVERAGE, check_structural_issues,
    structuralIssues, longTPFlags, joinStr, judge_overall]
  decide

theorem calculate_stop_loss_inv_entry {dir : Direction} {e s : ℚ} {sl : ℚ × ℚ}
    (h : calculate_stop_loss dir e s = some sl) : e ≠ 0 := by
  cases dir <;>
  · simp only [calculate_stop_loss, Option.bind_eq_bind, Option.bind_eq_some,
      fdiv_eq_some_iff, Option.some.injEq] at h
    obtain ⟨r, ⟨he, -⟩, -⟩ := h
    exact he

theorem calculate_leverage_inv_margin {pn ra ta mur l el rm : ℚ}
    (h : calculate_leverage pn ra ta mur = some (l, el, rm)) :
    ta * (mur / 100) ≠ 0 := by
  simp only [calculate_leverage, Option.bind_eq_bind, Option.bind_eq_some,
    fdiv_eq_some_iff, Option.some.injEq, Prod.mk.injEq] at h
  obtain ⟨r, ⟨hm, -⟩, -⟩ := h
  exact hm

/-! ### The claims -/

/-- C2: whenever the calculation returns a result, its `position_leverage`
lies in `[3, 150]` inclusive, regardless of the magnitude or sign of the
inputs. -/
theorem position_leverage_in_range (inputs : TradingInputs) (r : TradingResults)
    (h : calculate_trading_results inputs = some r) :
    (3 : ℚ) ≤ r.position_leverage ∧ r.position_leverage ≤ 150 := by
  obtain ⟨sl, ps, lev, tpr, hsl, hps, hlev, htpr, hr⟩ :=
    calculate_trading_results_inv h
  obtain ⟨l, el, rm⟩ := lev
  have hb := calculate_leverage_bounds hlev
  norm_num [MIN_LEVERAGE, MAX_LEVERAGE] at hb
  subst hr
  exact hb

/-- C2 witness: on the spec's worked example the calculation returns a result
whose leverage 31250/7797 ≈ 4.008 lies in `[3, 150]`. -/
theorem position_leverage_in_range_witness :
    calculate_trading_results egInputs = some egResult ∧
      (3 : ℚ) ≤ egResult.position_leverage ∧ egResult.position_leverage ≤ 150 :=
  ⟨egResult_eq, position_leverage_in_range egInputs egResult egResult_eq⟩

/-- C6: with `total_asset > 0` and `margin_usage_ratio > 0` (so
`min_margin > 0`), the leverage produced by Step 5 never satisfies
`leverage < MIN_LEVERAGE`, hence the `elif leverage < MIN_LEVERAGE and
stop_loss_pct < 1.0` branch of `judge_overall` cannot fire on it, whatever
`stop_loss_pct` is. -/
theorem low_leverage_branch_unreachable (pn ra ta mur l el rm slp : ℚ)
    (hta : 0 < ta) (hmur : 0 < mur)
    (h : calculate_leverage pn ra ta mur = some (l, el, rm)) :
    ¬ (l < MIN_LEVERAGE ∧ slp < 1) := by
  rintro ⟨hl, -⟩
  exact absurd (calculate_leverage_bounds h).1 (not_le.mpr hl)

/-- C6 witness: `calculate_leverage 12000 500 1000 60` returns leverage 20,
and the `elif` condition is false for it at `stop_loss_pct = 0`. -/
theorem low_leverage_branch_unreachable_witness :
    (0 : ℚ) < 1000 ∧ (0 : ℚ) < 60 ∧
      calculate_leverage 12000 500 1000 60 = some (20, 12, 600) ∧
      ¬ ((20 : ℚ) < MIN_LEVERAGE ∧ (0 : ℚ) < 1) :=
  ⟨by norm_num, by norm_num,
    by norm_num [calculate_leverage, fdiv, MIN_LEVERAGE, MAX_LEVERAGE],
    low_leverage_branch_unreachable 12000 500 1000 60 20 12 600 0 (by norm_num)
      (by norm_num)
      (by norm_num [calculate_leverage, fdiv, MIN_LEVERAGE, MAX_LEVERAGE])⟩

/-- C9: two inputs that agree on direction, entry price, stop loss and
take-profit list produce the same `structural_issue`, whatever their
`total_asset`, `risk_ratio` and `margin_usage_ratio` are. -/
theorem structural_issue_ignores_monetary_inputs
    (i1 i2 : TradingInputs) (r1 r2 : TradingResults)
    (hdir : i1.direction = i2.direction)
    (hentry : i1.entry_price = i2.entry_price)
    (hstop : i1.stop_loss = i2.stop_loss)
    (htp : i1.take_profits = i2.take_profits)
    (h1 : calculate_trading_results i1 = some r1)
    (h2 : calculate_trading_results i2 = some r2) :
    r1.structural_issue = r2.structural_issue := by
  obtain ⟨sl1, ps1, lev1, tpr1, -, -, -, -, hr1⟩ := calculate_trading_results_inv h1
  obtain ⟨sl2, ps2, lev2, tpr2, -, -, -, -, hr2⟩ := calculate_trading_results_inv h2
  subst hr1
  subst hr2
  simp only [hdir, hentry, hstop, htp]

/-- C9 witness: `egInputs` and `egInputs2` share the trade setup but differ
in all three monetary inputs, and their `structural_issue` agrees. -/
theorem structural_issue_ignores_monetary_inputs_witness :
    calculate_trading_results egInputs = some egResult ∧
      calculate_trading_results egInputs2 = some egResult2 ∧
      egResult.structural_issue = egResult2.structural_issue :=
  ⟨egResult_eq, egResult2_eq,
    structural_issue_ignores_monetary_inputs egInputs egInputs2 egResult egResult2
      rfl rfl rfl rfl egResult_eq egResult2_eq⟩

/-- C10: whenever the calculation returns a result, its `stop_loss_price`
is the caller-supplied `stop_loss` unchanged, for both directions. -/
theorem stop_loss_price_is_input (inputs : TradingInputs) (r : TradingResults)
    (h : calculate_trading_results inputs = some r) :
    r.stop_loss_price = inputs.stop_loss := by
  obtain ⟨sl, ps, lev, tpr, hsl, -, -, -, hr⟩ := calculate_trading_results_inv h
  subst hr
  exact calculate_stop_loss_snd hsl

/-- C10 witness: on the spec's worked example `stop_loss_price` is the
input stop 49000. -/
theorem stop_loss_price_is_input_witness :
    calculate_trading_results egInputs = some egResult ∧
      egResult.stop_loss_price = egInputs.stop_loss :=
  ⟨egResult_eq, stop_loss_price_is_input egInputs egResult egResult_eq⟩

/-- C3 counterexample: with `margin_usage_ratio = 0` (so `min_margin = 0`)
the calculation does not return a `TradingResults` value with non-finite
fields — it aborts with a division fault (`none`, modelling Python's
`ZeroDivisionError` on float division by exact zero). -/
theorem zero_min_margin_faults :
    calculate_trading_results ⟨1000, 5, .LONG, 100, 90, [110], 0⟩ = none := by
  norm_num [calculate_trading_results, calculate_risk_amount, calculate_stop_loss,
    calculate_position_size, calculate_leverage, calculate_actual_loss,
    calculate_rr_and_profit, rr_loop, price_diff, fdiv, TAKER_FEE_RATE,
    MIN_LEVERAGE, MAX_LEVERAGE]

/-- C3 (amended): the calculation completes and returns a `TradingResults`
exactly when no divisor is exactly zero (`entry_price ≠ 0`, sizing
denominator `price_diff + fee_per_unit ≠ 0`, and `min_margin =
total_asset * margin_usage_ratio / 100 ≠ 0`); division by exact zero aborts
the computation with a fault instead of propagating a non-finite numeric
result. -/
theorem calculation_completes_iff_nonzero_divisors (inputs : TradingInputs) :
    (∃ r, calculate_trading_results inputs = some r) ↔
      (inputs.entry_price ≠ 0 ∧
        price_diff inputs.direction inputs.entry_price inputs.stop_loss +
          (inputs.entry_price + inputs.stop_loss) * TAKER_FEE_RATE ≠ 0 ∧
        inputs.total_asset * (inputs.margin_usage_ratio / 100) ≠ 0) := by
  constructor
  · rintro ⟨r, hr⟩
    obtain ⟨sl, ps, lev, tpr, hsl, hps, hlev, -, -⟩ :=
      calculate_trading_results_inv hr
    obtain ⟨n, q⟩ := ps
    obtain ⟨l, el, rm⟩ := lev
    exact ⟨calculate_stop_loss_inv_entry hsl,
      (calculate_position_size_inv hps).1,
      calculate_leverage_inv_margin hlev⟩
  · rintro ⟨he, hd, hm⟩
    exact calculate_trading_results_total inputs he hd hm

/-- C4 counterexample: on a LONG input with `stop_loss = entry_price` (so
`stop_loss_pct = 0 ≤ 0`) the calculation completes, every `rr_ratio` is 0,
but the target's `actual_rr` is 2479/20 ≠ 0: the `actual_rr` guard is on the
fee-inclusive loss, not on `stop_loss_pct`. -/
theorem nonpositive_stop_pct_actual_rr_nonzero :
    ∃ r, calculate_trading_results egInputs3 = some r ∧
      r.stop_loss_pct ≤ 0 ∧
      ∃ p ∈ r.take_profit_results, (p.2).actual_rr ≠ 0 :=
  ⟨egResult3, egResult3_eq, by norm_num [egResult3],
    ⟨(1, ⟨0, 2479/20, 61975⟩), by simp [egResult3], by norm_num⟩⟩

/-- C4 (amended): whenever the calculation completes with
`stop_loss_pct ≤ 0`, every entry of `take_profit_results` has
`rr_ratio = 0`; `actual_rr` stays `net_profit / actual_loss_with_fee`
whenever that denominator is positive, so it need not be 0. -/
theorem rr_ratio_zero_of_nonpositive_stop_pct (inputs : TradingInputs)
    (r : TradingResults) (h : calculate_trading_results inputs = some r)
    (hslp : r.stop_loss_pct ≤ 0) :
    ∀ p ∈ r.take_profit_results, (p.2).rr_ratio = 0 := by
  obtain ⟨sl, ps, lev, tpr, hsl, hps, hlev, htpr, hr⟩ :=
    calculate_trading_results_inv h
  subst hr
  simp only [calculate_rr_and_profit] at htpr
  exact rr_loop_rr_ratio_zero (not_lt.mpr hslp) inputs.take_profits 1 tpr htpr

/-- C4 witness: on `egInputs3` (stop = entry, `stop_loss_pct = 0`) the single
target's `rr_ratio` is 0. -/
theorem rr_ratio_zero_of_nonpositive_stop_pct_witness :
    calculate_trading_results egInputs3 = some egResult3 ∧
      egResult3.stop_loss_pct ≤ 0 ∧
      ∀ p ∈ egResult3.take_profit_results, (p.2).rr_ratio = 0 :=
  ⟨egResult3_eq, by norm_num [egResult3],
    rr_ratio_zero_of_nonpositive_stop_pct egInputs3 egResult3 egResult3_eq
      (by norm_num [egResult3])⟩

/-- C5 counterexample: an input with empty `take_profits` still faults when
`margin_usage_ratio = 0`, so "raises no fault" does not hold for every input
with an empty take-profit sequence. -/
theorem empty_take_profits_can_fault :
    calculate_trading_results ⟨1000, 10, .LONG, 100, 90, [], 0⟩ = none := by
  norm_num [calculate_trading_results, calculate_risk_amount, calculate_stop_loss,
    calculate_position_size, calculate_leverage, calculate_actual_loss,
    calculate_rr_and_profit, rr_loop, price_diff, fdiv, TAKER_FEE_RATE,
    MIN_LEVERAGE, MAX_LEVERAGE]

/-- C5 (amended): for every input with an empty `take_profits` sequence and
no exactly-zero divisor elsewhere, the calculation raises no fault and
returns a `TradingResults` whose `take_profit_results` is the empty
mapping (the empty sequence itself never causes a fault). -/
theorem empty_take_profits_empty_mapping (inputs : TradingInputs)
    (htp : inputs.take_profits = [])
    (he : inputs.entry_price ≠ 0)
    (hd : price_diff inputs.direction inputs.entry_price inputs.stop_loss +
      (inputs.entry_price + inputs.stop_loss) * TAKER_FEE_RATE ≠ 0)
    (hm : inputs.total_asset * (inputs.margin_usage_ratio / 100) ≠ 0) :
    ∃ r, calculate_trading_results inputs = some r ∧
      r.take_profit_results = [] := by
  obtain ⟨r, hr⟩ := calculate_trading_results_total inputs he hd hm
  refine ⟨r, hr, ?_⟩
  obtain ⟨sl, ps, lev, tpr, -, -, -, htpr, hreq⟩ :=
    calculate_trading_results_inv hr
  subst hreq
  rw [htp] at htpr
  simp only [calculate_rr_and_profit, rr_loop, Option.some.injEq] at htpr
  exact htpr.symm

/-- C5 witness: LONG, entry 100, stop 90, no targets, margin usage 60%: all
divisors are nonzero, the calculation completes and the mapping is empty. -/
theorem empty_take_profits_empty_mapping_witness :
    (⟨1000, 10, .LONG, 100, 90, [], 60⟩ : TradingInputs).take_profits = [] ∧
      (⟨1000, 10, .LONG, 100, 90, [], 60⟩ : TradingInputs).entry_price ≠ 0 ∧
      (∃ r, calculate_trading_results ⟨1000, 10, .LONG, 100, 90, [], 60⟩ = some r ∧
        r.take_profit_results = []) :=
  ⟨rfl, by norm_num,
    empty_take_profits_empty_mapping ⟨1000, 10, .LONG, 100, 90, [], 60⟩ rfl
      (by norm_num) (by norm_num [price_diff, TAKER_FEE_RATE])
      (by norm_num)⟩

theorem longTPFlags_flags_nonincreasing (e : ℚ) :
    ∀ (pre : List ℚ) (idx : Nat) (prev a b : ℚ) (suf : List ℚ), b ≤ a →
      (toString (idx + pre.length + 1) ++ "차 익절이 이전 익절가보다 낮거나 같음") ∈
        longTPFlags e idx prev (pre ++ a :: b :: suf)
  | [], idx, prev, a, b, suf, hba => by
      simp only [List.nil_append, longTPFlags, List.length_nil]
      apply List.mem_append_right
      apply List.mem_append_left
      apply List.mem_append_right
      rw [if_pos hba]
      simp
  | c :: pre, idx, prev, a, b, suf, hba => by
      simp only [List.cons_append, longTPFlags, List.length_cons]
      apply List.mem_append_right
      have ih := longTPFlags_flags_nonincreasing e pre (idx + 1) c a b suf hba
      have harith : idx + (pre.length + 1) + 1 = idx + 1 + pre.length + 1 := by
        omega
      rw [harith]
      exact ih

theorem joinStr_length_ge (sep s : String) (l : List String) :
    s.length ≤ (joinStr sep (s :: l)).length := by
  cases l with
  | nil => simp [joinStr]
  | cons t rest =>
      show s.length ≤ (s ++ sep ++ joinStr sep (t :: rest)).length
      simp [String.length_append]
      omega

/-- C7: on a LONG setup, a take-profit list of the form
`pre ++ [a, b] ++ suf` with `b ≤ a` (target number `pre.length + 2` not
strictly above its predecessor) gets the "이전 익절가보다 낮거나 같음"
(not strictly increasing) flag for that target — the walk starts its running
previous price at `entry_price` and updates it to each target regardless of
flags, so the flag fires whether or not every target is above entry. -/
theorem long_nonincreasing_target_flagged (e s : ℚ) (pre : List ℚ) (a b : ℚ)
    (suf : List ℚ) (hba : b ≤ a) :
    (toString (pre.length + 2) ++ "차 익절이 이전 익절가보다 낮거나 같음") ∈
      structuralIssues .LONG e s (pre ++ a :: b :: suf) := by
  unfold structuralIssues
  apply List.mem_append_right
  have h := longTPFlags_flags_nonincreasing e pre 1 e a b suf hba
  have harith : pre.length + 2 = 1 + pre.length + 1 := by omega
  rw [harith]
  exact h

/-- C7 witness: LONG, entry 100, targets 110 then 105 (both above entry,
second not above the first): target 2 is flagged as not strictly
increasing. -/
theorem long_nonincreasing_target_flagged_witness :
    (105 : ℚ) ≤ 110 ∧
      "2차 익절이 이전 익절가보다 낮거나 같음" ∈
        structuralIssues .LONG 100 90 [110, 105] := by
  have h := long_nonincreasing_target_flagged 100 90 [] 110 105 [] (by norm_num)
  have hs : toString (([] : List ℚ).length + 2) ++
      "차 익절이 이전 익절가보다 낮거나 같음" =
      "2차 익절이 이전 익절가보다 낮거나 같음" := by decide
  rw [hs] at h
  exact ⟨by norm_num, h⟩

/-- C8: a LONG setup with `stop_loss = entry_price` raises the stop-loss
flag (equality counts as a violation), so `structural_issue` is never the
"문제 없음" (no issues) sentinel. -/
theorem long_stop_equal_entry_flagged (e : ℚ) (tps : List ℚ) :
    "스탑로스가 진입가보다 높거나 같음" ∈ structuralIssues .LONG e e tps ∧
      check_structural_issues .LONG e e tps ≠ "문제 없음" := by
  have hform : structuralIssues .LONG e e tps =
      "스탑로스가 진입가보다 높거나 같음" :: longTPFlags e 1 e tps := by
    unfold structuralIssues
    rw [if_pos (le_refl e)]
    rfl
  constructor
  · rw [hform]
    exact List.mem_cons_self _ _
  · unfold check_structural_issues
    rw [hform]
    rw [if_neg (by simp)]
    intro heq
    have hlen := joinStr_length_ge " / " "스탑로스가 진입가보다 높거나 같음"
      (longTPFlags e 1 e tps)
    rw [heq] at hlen
    have h18 : ("스탑로스가 진입가보다 높거나 같음" : String).length = 18 := by
      decide
    have h5 : ("문제 없음" : String).length = 5 := by decide
    omega

end TradingCalc
